import Mathlib

/-!
Verification of the data-crawling core of the repository
(`src/data_crawling/crawler.py`, `config.py`, `utils.py`).

A shallow embedding: Python dicts become association lists, a page
payload (`response.json()`) becomes `PageData` with optional `body` /
`more` keys (mirroring `data.get('body', [])` / `data.get('more',
False)`), a fallible fetch becomes `Option PageData`, and the network
is an oracle `page → attempt → Option PageData` giving the result of
each attempt of `get_real_estate_data`.  Sleeps and HTTP requests are
recorded in an event trace so that timing/ordering claims can be
stated.  The unbounded `while True` collection loop is given explicit
fuel; `none` models non-termination within the fuel bound.
-/

namespace NaverLand

/-- A listing record: one JSON object from the `body` list, modelled as
an association list from field name to (stringified) field value. -/
def Record := List (String × String)

instance : DecidableEq Record := by
  unfold Record
  infer_instance

/-- A parsed page payload.  `body`/`more` are `Option`s because the code
accesses them with `dict.get` and a default (`data.get('body', [])`,
`data.get('more', False)`): the key may be absent. -/
structure PageData where
  body : Option (List Record)
  more : Option Bool
deriving DecidableEq

/-- `data.get('body', [])` from `crawler.py` line 80. -/
def PageData.getBody (d : PageData) : List Record := d.body.getD []

/-- `data.get('more', False)` from `crawler.py` line 86. -/
def PageData.getMore (d : PageData) : Bool := d.more.getD false

/-! ### config.py -/

/-- `MAX_RETRIES = 3` (config.py). -/
def MAX_RETRIES : Nat := 3

/-- `REQUEST_DELAY = (3, 5)` (config.py): request throttle range in seconds. -/
def REQUEST_DELAY : Nat × Nat := (3, 5)

/-- `RETRY_DELAY = (5, 10)` (config.py): backoff range in seconds. -/
def RETRY_DELAY : Nat × Nat := (5, 10)

/-- `REGION_CODES` (config.py): the 18-entry region-code table. -/
def REGION_CODES : List (String × String) :=
  [("1120010100", "왕십리도선동"),
   ("1120010200", "왕십리제2동"),
   ("1120010300", "마장동"),
   ("1120010400", "사근동"),
   ("1120010500", "행당제1동"),
   ("1120010600", "행당제2동"),
   ("1120010700", "응봉동"),
   ("1120010800", "금호1가동"),
   ("1120010900", "금호2가동"),
   ("1120011000", "금호3가동"),
   ("1120011100", "금호4가동"),
   ("1120011200", "옥수동"),
   ("1120011300", "성수1가제1동"),
   ("1120011400", "성수1가제2동"),
   ("1120011500", "성수2가제1동"),
   ("1120011600", "성수2가제3동"),
   ("1120011700", "송정동"),
   ("1120011800", "용답동")]

/-- `COLUMNS_TO_SAVE` (config.py): the fixed output column list. -/
def COLUMNS_TO_SAVE : List String :=
  ["atclNo", "atclNm", "region", "rletTpNm", "tradTpNm", "flrInfo",
   "prc", "rentPrc", "spc1", "spc2", "direction", "atclCfmYmd",
   "lat", "lng", "atclFetrDesc", "bildNm", "rltrNm"]

/-- `OUTPUT_FILE` (config.py). -/
def OUTPUT_FILE : String := "naver_real_estate_with_region.csv"

/-! ### utils.py -/

/-- `get_region_name` (utils.py): `REGION_CODES.get(cortarNo,
f'기타지역({cortarNo})')`. -/
def get_region_name (cortarNo : String) : String :=
  match REGION_CODES.lookup cortarNo with
  | some name => name
  | none => "기타지역(" ++ cortarNo ++ ")"

/-! ### get_real_estate_data (crawler.py)

Python's substring test `marker in response.text` is modelled over char
lists.  An HTTP exchange outcome is either a transport/connection
exception (`exn`) or a response with a status code, a body text, and the
result the body would give if parsed as JSON (`parsed = none` models a
parse exception in `response.json()`).  Keeping `parsed` as a field lets
us state that on a bot-challenge the result ignores it entirely, i.e.
the body is never parsed. -/

/-- `needle` occurs at the start of `hay`. -/
def startsWith : List Char → List Char → Bool
  | [], _ => true
  | _ :: _, [] => false
  | a :: as, b :: bs => a == b && startsWith as bs

/-- Python's `needle in hay` substring test. -/
def containsSeq (needle : List Char) : List Char → Bool
  | [] => needle.isEmpty
  | b :: bs => startsWith needle (b :: bs) || containsSeq needle bs

/-- The bot-challenge marker string checked against `response.text`
(crawler.py line 39). -/
def CAPTCHA_MARKER : List Char := "비정상적인 접근".data

/-- Outcome of one raw HTTP exchange. -/
inductive HttpResult where
  | ok (status : Nat) (text : List Char) (parsed : Option PageData)
  | exn

/-- `get_real_estate_data` (crawler.py lines 19-47) applied to one
exchange outcome: non-200 status → `None`; bot-challenge marker in the
body text → `None`; transport or parse exception → `None`; otherwise the
parsed JSON payload.  (The pre-request `random_sleep(*REQUEST_DELAY)` is
accounted for in the event traces of the retry loop below.) -/
def get_real_estate_data (resp : HttpResult) : Option PageData :=
  match resp with
  | .exn => none
  | .ok status text parsed =>
    if status ≠ 200 then none
    else if containsSeq CAPTCHA_MARKER text then none
    else parsed

/-! ### The retry loop inside collect_data (crawler.py lines 51-78) -/

/-- Observable events of a run: a sleep drawn uniformly from the range
`[lo, hi]` seconds, or an HTTP request for a page (with its 0-based
attempt index within the retry loop). -/
inductive Ev where
  | sleep (lo hi : Nat)
  | http (page : Nat) (attempt : Nat)
deriving DecidableEq

/-- The environment: the result `get_real_estate_data` yields for the
given page on the given (0-based) attempt. -/
def Oracle := Nat → Nat → Option PageData

/-- The inner retry loop of `collect_data` (lines 55-74): `k` is the
current `retry_count`, the second argument the remaining attempt budget
(`MAX_RETRIES - retry_count`).  Each attempt is preceded by the request
throttle sleep (inside `get_real_estate_data`, line 25) and followed, on
failure, by the backoff sleep `random_sleep(*RETRY_DELAY)` (line 63).
The outer `except` branch of the Python loop is unreachable here because
`get_real_estate_data` already converts every exception to `None`. -/
def retryAux (oracle : Oracle) (page : Nat) : Nat → Nat → Option PageData × List Ev
  | _, 0 => (none, [])
  | k, n + 1 =>
    match oracle page k with
    | some d => (some d, [Ev.sleep REQUEST_DELAY.1 REQUEST_DELAY.2, Ev.http page k])
    | none =>
      let rest := retryAux oracle page (k + 1) n
      (rest.1, Ev.sleep REQUEST_DELAY.1 REQUEST_DELAY.2 :: Ev.http page k ::
               Ev.sleep RETRY_DELAY.1 RETRY_DELAY.2 :: rest.2)

/-- One full pass of the retry loop for a page: up to `MAX_RETRIES`
attempts starting from `retry_count = 0`.  Returns the fetched payload
(or `none` on exhaustion) plus the event trace. -/
def fetch_with_retry (oracle : Oracle) (page : Nat) : Option PageData × List Ev :=
  retryAux oracle page 0 MAX_RETRIES

/-! ### collect_data (crawler.py lines 49-91) -/

/-- The crawler's mutable state: `self.all_articles` and
`self.current_page` (crawler.py lines 16-17). -/
structure CrawlState where
  all_articles : List Record
  current_page : Nat
deriving DecidableEq

/-- `__init__`: `all_articles = []`, `current_page = 1`. -/
def initState : CrawlState := { all_articles := [], current_page := 1 }

/-- The `while True` collection loop, with explicit fuel bounding the
number of pages visited (`none` = fuel exhausted, i.e. the Python loop
would still be running).  Mirrors lines 51-91: fetch with retries; on
exhaustion return `False`; if `data.get('body', [])` is empty, break
with the accumulator unchanged; otherwise extend `all_articles` with
`data['body']`; if `data.get('more', False)` is falsy, break; otherwise
increment `current_page` and continue.  `True` is returned on break. -/
def collectAux (oracle : Oracle) : Nat → CrawlState → List Ev → Option (Bool × CrawlState × List Ev)
  | 0, _, _ => none
  | fuel + 1, st, tr =>
    let res := fetch_with_retry oracle st.current_page
    match res.1 with
    | none => some (false, st, tr ++ res.2)
    | some d =>
      if d.getBody.isEmpty then some (true, st, tr ++ res.2)
      else
        if d.getMore = false then
          some (true, { all_articles := st.all_articles ++ d.getBody,
                        current_page := st.current_page }, tr ++ res.2)
        else
          collectAux oracle fuel
            { all_articles := st.all_articles ++ d.getBody,
              current_page := st.current_page + 1 } (tr ++ res.2)

/-- `collect_data` run from the freshly-initialised crawler state. -/
def collect_data (oracle : Oracle) (fuel : Nat) : Option (Bool × CrawlState × List Ev) :=
  collectAux oracle fuel initState []

/-! ### process_data (crawler.py lines 93-112)

`pd.DataFrame(list_of_dicts)` gives the union of the dicts' keys as
columns, in order of first appearance; a projected cell that a row lacks
is NaN, modelled as `none`.  `get_region_name` applied to a NaN cell
receives Python's `nan` formatted into the fallback label, modelled by
defaulting the missing cell to the string "nan". -/

/-- Deduplicate, keeping the first occurrence of each element (pandas
column order for a list of dicts). -/
def firstDedupAux (seen : List String) : List String → List String
  | [] => []
  | a :: as =>
    if a ∈ seen then firstDedupAux seen as
    else a :: firstDedupAux (a :: seen) as

/-- The columns of `pd.DataFrame(records)`: union of the records' keys
in order of first appearance. -/
def dfColumns (records : List Record) : List String :=
  firstDedupAux [] (records.flatMap (fun r => r.map Prod.fst))

/-- `df[k] = v` restricted to one row: set (or overwrite) field `k`. -/
def setField (r : Record) (k v : String) : Record :=
  (r.filter (fun p => !(p.1 == k))) ++ [(k, v)]

/-- A row after column projection: each selected column paired with its
cell (`none` = NaN for a column this row lacks). -/
def ProjRow := List (String × Option String)

/-- The final table: selected columns, in order, and the projected rows. -/
structure DataFrame where
  cols : List String
  rows : List ProjRow

/-- `process_data` (crawler.py lines 93-112): `None` on an empty
accumulator; otherwise build the frame, derive `region` per row from
`cortarNo` when that column exists and from the sentinel
`'지역정보없음'` otherwise, then project to the members of
`COLUMNS_TO_SAVE` that are present, in `COLUMNS_TO_SAVE` order. -/
def process_data (records : List Record) : Option DataFrame :=
  if records.isEmpty then none
  else
    let cols := dfColumns records
    let withRegion : List Record :=
      if "cortarNo" ∈ cols then
        records.map (fun r => setField r "region" (get_region_name ((r.lookup "cortarNo").getD "nan")))
      else
        records.map (fun r => setField r "region" "지역정보없음")
    let cols1 := if "region" ∈ cols then cols else cols ++ ["region"]
    let available := COLUMNS_TO_SAVE.filter (fun c => decide (c ∈ cols1))
    some { cols := available,
           rows := withRegion.map (fun r => available.map (fun c => (c, r.lookup c))) }

/-! ### run (crawler.py lines 119-133) -/

/-- What a whole run does, output-wise.  `wrote df` is the only outcome
in which `save_data` is invoked (and hence the only one that writes the
output file); `collectFailed` is the early `return` after
`collect_data` yields `False`; `noData` is `process_data` returning
`None`, after which `run` falls through without saving. -/
inductive RunOutcome where
  | collectFailed
  | noData
  | wrote (df : DataFrame)

/-- `run` (crawler.py lines 119-133), with the same fuel discipline as
`collect_data`. -/
def run (oracle : Oracle) (fuel : Nat) : Option RunOutcome :=
  match collect_data oracle fuel with
  | none => none
  | some (false, _, _) => some RunOutcome.collectFailed
  | some (true, st, _) =>
    match process_data st.all_articles with
    | none => some RunOutcome.noData
    | some df => some (RunOutcome.wrote df)

/-! ### Trace vocabulary used by the claims -/

/-- Whether an event is an HTTP request for page `q`. -/
def isHttpFor (q : Nat) : Ev → Bool
  | Ev.http p _ => p == q
  | _ => false

/-- Number of HTTP requests (attempts) in a trace. -/
def httpCount (evs : List Ev) : Nat :=
  (evs.filter (fun e => match e with | Ev.http _ _ => true | _ => false)).length

/-- A well-slept retry trace for a page: every attempt is immediately
preceded by a request-throttle sleep in the range 3-5 s, targets the
given page, and every failed attempt (one followed by more trace) is
immediately followed by a backoff sleep in the range 5-10 s. -/
def okTrace (page : Nat) : List Ev → Bool
  | [] => true
  | [Ev.sleep 3 5, Ev.http p _] => p == page
  | Ev.sleep 3 5 :: Ev.http p _ :: Ev.sleep 5 10 :: r => (p == page) && okTrace page r
  | _ => false

/-! ### Concrete sample inputs used to exercise the development -/

/-- A sample listing record carrying a known region code and a field
outside `COLUMNS_TO_SAVE`. -/
def sampleRec : Record :=
  [("atclNo", "1"), ("cortarNo", "1120010100"), ("junkField", "x")]

/-- A sample record with no `cortarNo` key. -/
def sampleRecNoCode : Record := [("atclNm", "A"), ("prc", "1000")]

/-- A page with one record and a false continuation flag. -/
def pageLast : PageData := { body := some [sampleRec], more := some false }

/-- A page with one record and a true continuation flag. -/
def pageMore : PageData := { body := some [sampleRec], more := some true }

/-- A page with an empty record list. -/
def pageEmpty : PageData := { body := some [], more := some false }

/-- An upstream that always answers with `pageLast`. -/
def oracleStop : Oracle := fun _ _ => some pageLast

/-- An upstream that always fails. -/
def oracleFail : Oracle := fun _ _ => none

/-- An upstream whose page 1 continues to a page 2 with an empty body. -/
def oracleTwoPages : Oracle := fun p _ => if p = 1 then some pageMore else some pageEmpty

/-- The per-page payloads of `oracleTwoPages`, as a page-indexed map
(index 0 = page 1). -/
def twoPagesData : Nat → PageData := fun i => if i = 0 then pageMore else pageEmpty

/-- An upstream whose very first page already has an empty body. -/
def oracleEmptyFirst : Oracle := fun _ _ => some pageEmpty

/-- An upstream whose page 1 succeeds with a continuing page but whose
page 2 fails on every attempt. -/
def oracleFailSecond : Oracle := fun p _ => if p = 1 then some pageMore else none

/-- A raw HTTP exchange trace whose first attempt returns the
bot-challenge marker in the body and whose later attempts succeed. -/
def respCaptchaFirst : Nat → Nat → HttpResult := fun _ k =>
  if k = 0 then HttpResult.ok 200 CAPTCHA_MARKER (some pageLast)
  else HttpResult.ok 200 [] (some pageLast)

/-! ## Helper lemmas about the retry loop -/

/-- Every HTTP request issued by the retry loop for `page` targets
`page`: the trace contains no request for any other page `q`. -/
lemma retryAux_http_target (oracle : Oracle) (page q : Nat) (hq : q ≠ page) :
    ∀ n k, ∀ e ∈ (retryAux oracle page k n).2, isHttpFor q e = false := by
  intro n
  induction n with
  | zero => intro k e he; simp [retryAux] at he
  | succ n ih =>
    intro k e he
    cases h : oracle page k with
    | some d =>
      simp [retryAux, h] at he
      rcases he with he | he <;> subst he <;> simp [isHttpFor, beq_iff_eq]
      omega
    | none =>
      simp [retryAux, h] at he
      rcases he with he | he | he | he
      · subst he; simp [isHttpFor]
      · subst he; simp [isHttpFor, beq_iff_eq]; omega
      · subst he; simp [isHttpFor]
      · exact ih (k + 1) e he

/-- The retry loop issues at most `n` HTTP requests when given budget `n`. -/
lemma retryAux_httpCount (oracle : Oracle) (page : Nat) :
    ∀ n k, httpCount (retryAux oracle page k n).2 ≤ n := by
  intro n
  induction n with
  | zero => intro k; simp [retryAux, httpCount]
  | succ n ih =>
    intro k
    cases h : oracle page k with
    | some d => simp [retryAux, h, httpCount]
    | none =>
      have := ih (k + 1)
      simp only [retryAux, h, httpCount] at this ⊢
      simp only [List.filter]
      simp
      omega

/-- Retry traces are well slept: a 3-5 s throttle sleep immediately
precedes every attempt and a 5-10 s backoff sleep immediately follows
every failed one. -/
lemma retryAux_okTrace (oracle : Oracle) (page : Nat) :
    ∀ n k, okTrace page (retryAux oracle page k n).2 = true := by
  intro n
  induction n with
  | zero => intro k; simp [retryAux, okTrace]
  | succ n ih =>
    intro k
    cases h : oracle page k with
    | some d => simp [retryAux, h, okTrace, REQUEST_DELAY]
    | none =>
      simp [retryAux, h, okTrace, REQUEST_DELAY, RETRY_DELAY, ih (k + 1)]

/-- If every attempt in the remaining budget fails, the retry loop
yields `none`. -/
lemma retryAux_none (oracle : Oracle) (page : Nat) :
    ∀ n k, (∀ j, j < n → oracle page (k + j) = none) → (retryAux oracle page k n).1 = none := by
  intro n
  induction n with
  | zero => intro k _; simp [retryAux]
  | succ n ih =>
    intro k hf
    have h0 : oracle page k = none := by simpa using hf 0 (by omega)
    simp only [retryAux, h0]
    exact ih (k + 1) (fun j hj => by
      have heq : k + 1 + j = k + (j + 1) := by omega
      rw [heq]
      exact hf (j + 1) (by omega))

/-! ## Helper lemmas about the collection loop -/

/-- Unfolding: retry exhaustion makes `collect_data` return `False`
with the state untouched. -/
lemma collectAux_fail (oracle : Oracle) (fuel : Nat) (st : CrawlState) (tr : List Ev)
    (h : (fetch_with_retry oracle st.current_page).1 = none) :
    collectAux oracle (fuel + 1) st tr =
      some (false, st, tr ++ (fetch_with_retry oracle st.current_page).2) := by
  simp [collectAux, h]

/-- Unfolding: an empty body list stops the loop, state untouched. -/
lemma collectAux_empty (oracle : Oracle) (fuel : Nat) (st : CrawlState) (tr : List Ev)
    (d : PageData) (h : (fetch_with_retry oracle st.current_page).1 = some d)
    (he : d.getBody.isEmpty = true) :
    collectAux oracle (fuel + 1) st tr =
      some (true, st, tr ++ (fetch_with_retry oracle st.current_page).2) := by
  simp [collectAux, h, he]

/-- Unfolding: a non-empty body with a false continuation flag appends
the records and stops. -/
lemma collectAux_last (oracle : Oracle) (fuel : Nat) (st : CrawlState) (tr : List Ev)
    (d : PageData) (h : (fetch_with_retry oracle st.current_page).1 = some d)
    (hne : d.getBody.isEmpty = false) (hm : d.getMore = false) :
    collectAux oracle (fuel + 1) st tr =
      some (true, { all_articles := st.all_articles ++ d.getBody,
                    current_page := st.current_page },
            tr ++ (fetch_with_retry oracle st.current_page).2) := by
  simp [collectAux, h, hne, hm]

/-- Unfolding: a non-empty body with a true continuation flag appends
the records, advances the cursor by one, and loops. -/
lemma collectAux_step (oracle : Oracle) (fuel : Nat) (st : CrawlState) (tr : List Ev)
    (d : PageData) (h : (fetch_with_retry oracle st.current_page).1 = some d)
    (hne : d.getBody.isEmpty = false) (hm : d.getMore = true) :
    collectAux oracle (fuel + 1) st tr =
      collectAux oracle fuel
        { all_articles := st.all_articles ++ d.getBody,
          current_page := st.current_page + 1 }
        (tr ++ (fetch_with_retry oracle st.current_page).2) := by
  simp [collectAux, h, hne, hm]

/-- Whatever the loop does, the accumulator only ever grows by
appending: the final article list extends the initial one. -/
lemma collectAux_mono (oracle : Oracle) :
    ∀ fuel (st : CrawlState) (tr : List Ev) (b : Bool) (st2 : CrawlState) (tr2 : List Ev),
      collectAux oracle fuel st tr = some (b, st2, tr2) →
      ∃ t, st2.all_articles = st.all_articles ++ t := by
  intro fuel
  induction fuel with
  | zero => intro st tr b st2 tr2 h; simp [collectAux] at h
  | succ fuel ih =>
    intro st tr b st2 tr2 h
    cases hf : (fetch_with_retry oracle st.current_page).1 with
    | none =>
      rw [collectAux_fail oracle fuel st tr hf] at h
      simp only [Option.some.injEq, Prod.mk.injEq] at h
      exact ⟨[], by simp [← h.2.1]⟩
    | some d =>
      cases he : d.getBody.isEmpty with
      | true =>
        rw [collectAux_empty oracle fuel st tr d hf he] at h
        simp only [Option.some.injEq, Prod.mk.injEq] at h
        exact ⟨[], by simp [← h.2.1]⟩
      | false =>
        cases hm : d.getMore with
        | false =>
          rw [collectAux_last oracle fuel st tr d hf he hm] at h
          simp only [Option.some.injEq, Prod.mk.injEq] at h
          exact ⟨d.getBody, by simp [← h.2.1]⟩
        | true =>
          rw [collectAux_step oracle fuel st tr d hf he hm] at h
          obtain ⟨t, ht⟩ := ih _ _ _ _ _ h
          exact ⟨d.getBody ++ t, by simpa [List.append_assoc] using ht⟩

/-- Splitting a concatenation over `List.range (k + 1)` at the front. -/
lemma range_succ_flatMap {α : Type} (k : Nat) (f : Nat → List α) :
    (List.range (k + 1)).flatMap f = f 0 ++ (List.range k).flatMap (fun i => f (i + 1)) := by
  rw [List.range_succ_eq_map]
  simp [List.flatMap_map, Nat.succ_eq_add_one]

/-- Running the collection loop over `k` consecutive non-final pages
followed by an empty page appends exactly the concatenation of those
`k` pages' bodies and advances the cursor by `k`. -/
lemma collectAux_run (oracle : Oracle) :
    ∀ (k : Nat) (D : Nat → PageData) (fuel : Nat) (st : CrawlState) (tr : List Ev),
      (∀ i, i ≤ k → (fetch_with_retry oracle (st.current_page + i)).1 = some (D i)) →
      (∀ i, i < k → (D i).getBody.isEmpty = false ∧ (D i).getMore = true) →
      (D k).getBody.isEmpty = true →
      k < fuel →
      ∃ tr2, collectAux oracle fuel st tr =
        some (true,
          { all_articles := st.all_articles ++ (List.range k).flatMap (fun i => (D i).getBody),
            current_page := st.current_page + k }, tr2) := by
  intro k
  induction k with
  | zero =>
    intro D fuel st tr hfetch _ hlast hfuel
    obtain ⟨f, rfl⟩ : ∃ f, fuel = f + 1 := ⟨fuel - 1, by omega⟩
    have h0 : (fetch_with_retry oracle st.current_page).1 = some (D 0) := by
      simpa using hfetch 0 (by omega)
    refine ⟨tr ++ (fetch_with_retry oracle st.current_page).2, ?_⟩
    rw [collectAux_empty oracle f st tr (D 0) h0 hlast]
    simp
  | succ k ih =>
    intro D fuel st tr hfetch hmid hlast hfuel
    obtain ⟨f, rfl⟩ : ∃ f, fuel = f + 1 := ⟨fuel - 1, by omega⟩
    have h0 : (fetch_with_retry oracle st.current_page).1 = some (D 0) := by
      simpa using hfetch 0 (by omega)
    have hd0 := hmid 0 (by omega)
    rw [collectAux_step oracle f st tr (D 0) h0 hd0.1 hd0.2]
    have hfetch1 : ∀ i, i ≤ k →
        (fetch_with_retry oracle
          (CrawlState.current_page
            { all_articles := st.all_articles ++ (D 0).getBody,
              current_page := st.current_page + 1 } + i)).1 = some (D (i + 1)) := by
      intro i hi
      have heq : st.current_page + 1 + i = st.current_page + (i + 1) := by omega
      simpa [heq] using hfetch (i + 1) (by omega)
    obtain ⟨tr2, htr2⟩ := ih (fun i => D (i + 1)) f
      { all_articles := st.all_articles ++ (D 0).getBody,
        current_page := st.current_page + 1 }
      (tr ++ (fetch_with_retry oracle st.current_page).2)
      hfetch1 (fun i hi => hmid (i + 1) (by omega)) hlast (by omega)
    refine ⟨tr2, ?_⟩
    rw [htr2]
    have harr : (st.all_articles ++ (D 0).getBody) ++
        (List.range k).flatMap (fun i => (D (i + 1)).getBody) =
        st.all_articles ++ (List.range (k + 1)).flatMap (fun i => (D i).getBody) := by
      rw [range_succ_flatMap, List.append_assoc]
    have hpg : st.current_page + 1 + k = st.current_page + (k + 1) := by omega
    simp [harr, hpg]

/-- Running the collection loop over `k` consecutive non-final pages
and then hitting retry exhaustion on the next page yields `False` with
the `k` pages' records accumulated and the cursor at the failing page. -/
lemma collectAux_run_fail (oracle : Oracle) :
    ∀ (k : Nat) (D : Nat → PageData) (fuel : Nat) (st : CrawlState) (tr : List Ev),
      (∀ i, i < k → (fetch_with_retry oracle (st.current_page + i)).1 = some (D i)) →
      (∀ i, i < k → (D i).getBody.isEmpty = false ∧ (D i).getMore = true) →
      (fetch_with_retry oracle (st.current_page + k)).1 = none →
      k < fuel →
      ∃ tr2, collectAux oracle fuel st tr =
        some (false,
          { all_articles := st.all_articles ++ (List.range k).flatMap (fun i => (D i).getBody),
            current_page := st.current_page + k }, tr2) := by
  intro k
  induction k with
  | zero =>
    intro D fuel st tr _ _ hfail hfuel
    obtain ⟨f, rfl⟩ : ∃ f, fuel = f + 1 := ⟨fuel - 1, by omega⟩
    have h0 : (fetch_with_retry oracle st.current_page).1 = none := by
      simpa using hfail
    refine ⟨tr ++ (fetch_with_retry oracle st.current_page).2, ?_⟩
    rw [collectAux_fail oracle f st tr h0]
    simp
  | succ k ih =>
    intro D fuel st tr hfetch hmid hfail hfuel
    obtain ⟨f, rfl⟩ : ∃ f, fuel = f + 1 := ⟨fuel - 1, by omega⟩
    have h0 : (fetch_with_retry oracle st.current_page).1 = some (D 0) := by
      simpa using hfetch 0 (by omega)
    have hd0 := hmid 0 (by omega)
    rw [collectAux_step oracle f st tr (D 0) h0 hd0.1 hd0.2]
    have hfetch1 : ∀ i, i < k →
        (fetch_with_retry oracle
          (CrawlState.current_page
            { all_articles := st.all_articles ++ (D 0).getBody,
              current_page := st.current_page + 1 } + i)).1 = some (D (i + 1)) := by
      intro i hi
      have heq : st.current_page + 1 + i = st.current_page + (i + 1) := by omega
      simpa [heq] using hfetch (i + 1) (by omega)
    have hfail1 : (fetch_with_retry oracle
        (CrawlState.current_page
          { all_articles := st.all_articles ++ (D 0).getBody,
            current_page := st.current_page + 1 } + k)).1 = none := by
      have heq : st.current_page + 1 + k = st.current_page + (k + 1) := by omega
      simpa [heq] using hfail
    obtain ⟨tr2, htr2⟩ := ih (fun i => D (i + 1)) f
      { all_articles := st.all_articles ++ (D 0).getBody,
        current_page := st.current_page + 1 }
      (tr ++ (fetch_with_retry oracle st.current_page).2)
      hfetch1 (fun i hi => hmid (i + 1) (by omega)) hfail1 (by omega)
    refine ⟨tr2, ?_⟩
    rw [htr2]
    have harr : (st.all_articles ++ (D 0).getBody) ++
        (List.range k).flatMap (fun i => (D (i + 1)).getBody) =
        st.all_articles ++ (List.range (k + 1)).flatMap (fun i => (D i).getBody) := by
      rw [range_succ_flatMap, List.append_assoc]
    have hpg : st.current_page + 1 + k = st.current_page + (k + 1) := by omega
    simp [harr, hpg]

/-! ## Helper lemmas about lookups and columns -/

/-- A successful association-list lookup returns a stored value. -/
lemma lookup_some_val_mem :
    ∀ {l : List (String × String)} {k v : String},
      List.lookup k l = some v → ∃ a, (a, v) ∈ l := by
  intro l
  induction l with
  | nil => intro k v h; simp [List.lookup] at h
  | cons p rest ih =>
    intro k v h
    rw [List.lookup] at h
    cases hbeq : (k == p.1) with
    | true =>
      rw [hbeq] at h
      simp only [Option.some.injEq] at h
      exact ⟨p.1, by simp [← h]⟩
    | false =>
      rw [hbeq] at h
      obtain ⟨a, ha⟩ := ih h
      exact ⟨a, List.mem_cons_of_mem _ ha⟩

/-- First-occurrence deduplication only keeps elements of the input. -/
lemma mem_firstDedupAux {a : String} :
    ∀ (l : List String) (seen : List String), a ∈ firstDedupAux seen l → a ∈ l := by
  intro l
  induction l with
  | nil => intro seen h; simp [firstDedupAux] at h
  | cons b bs ih =>
    intro seen h
    by_cases hb : b ∈ seen
    · simp only [firstDedupAux, if_pos hb] at h
      exact List.mem_cons_of_mem _ (ih seen h)
    · simp only [firstDedupAux, if_neg hb, List.mem_cons] at h
      rcases h with h | h
      · simp [h]
      · exact List.mem_cons_of_mem _ (ih (b :: seen) h)

/-- A key that appears in a record is found by lookup. -/
lemma lookup_isSome_of_key_mem :
    ∀ (r : List (String × String)) (k : String),
      k ∈ List.map Prod.fst r → List.lookup k r ≠ none := by
  intro r
  induction r with
  | nil => intro k h; simp at h
  | cons p rest ih =>
    intro k h
    rw [List.map_cons, List.mem_cons] at h
    by_cases hbeq : (k == p.1) = true
    · simp [List.lookup, hbeq]
    · have hk : k ∈ List.map Prod.fst rest := by
        rcases h with h | h
        · exact absurd (by simpa [beq_iff_eq] using h) hbeq
        · exact h
      simpa [List.lookup, hbeq] using ih k hk

/-- If no accumulated record carries the key `cortarNo`, the frame has
no `cortarNo` column. -/
lemma cortarNo_not_col (records : List Record)
    (hmiss : ∀ r ∈ records, List.lookup "cortarNo" r = none) :
    "cortarNo" ∉ dfColumns records := by
  intro hmem
  rw [dfColumns] at hmem
  have h1 := mem_firstDedupAux _ [] hmem
  rw [List.mem_flatMap] at h1
  obtain ⟨r, hr, hk⟩ := h1
  exact lookup_isSome_of_key_mem r _ hk (hmiss r hr)

/-- Looking up a key in a row built by tagging each selected column. -/
lemma lookup_map_self {β : Type} (f : String → β) :
    ∀ (l : List String) (k : String), k ∈ l →
      List.lookup k (l.map (fun c => (c, f c))) = some (f k) := by
  intro l
  induction l with
  | nil => intro k h; simp at h
  | cons a as ih =>
    intro k h
    by_cases hak : k = a
    · subst hak; simp [List.lookup]
    · have hk : k ∈ as := by
        rcases List.mem_cons.mp h with h | h
        · exact absurd h hak
        · exact h
      have hbeq : (k == a) = false := by
        rw [beq_eq_false_iff_ne]; exact hak
      simpa [List.lookup, hbeq] using ih k hk

/-- Appending a binding for `k` after entries whose keys all differ
from `k` makes lookup of `k` find that binding. -/
lemma lookup_append_key {k v : String} :
    ∀ (l : List (String × String)),
      (∀ p ∈ l, (p.1 == k) = false) → List.lookup k (l ++ [(k, v)]) = some v := by
  intro l
  induction l with
  | nil => intro _; simp [List.lookup]
  | cons p rest ih =>
    intro hl
    have hp := hl p (List.mem_cons_self _ _)
    have hbeq : (k == p.1) = false := by
      rw [beq_eq_false_iff_ne] at hp ⊢
      exact fun he => hp he.symm
    simp only [List.cons_append, List.lookup, hbeq]
    exact ih (fun q hq => hl q (List.mem_cons_of_mem _ hq))

/-- `df[k] = v` on a row makes the row's `k` cell equal `v`. -/
lemma lookup_setField (r : Record) (k v : String) :
    List.lookup k (setField r k v) = some v := by
  rw [setField]
  exact lookup_append_key _ (fun p hp => by
    have := List.of_mem_filter hp
    simpa using this)

/-! ## Claim theorems -/

/-- C1: if a page fetch succeeds with a non-empty record list but a
false continuation flag, that page's records are appended to the
accumulator, `collect_data` stops immediately (returning `True` with no
further iteration), and the step's event trace contains no HTTP request
for the next page number. -/
theorem last_page_records_kept_then_stop (oracle : Oracle) (fuel : Nat) (st : CrawlState)
    (tr : List Ev) (d : PageData)
    (hfetch : (fetch_with_retry oracle st.current_page).1 = some d)
    (hne : d.getBody.isEmpty = false)
    (hmore : d.getMore = false) :
    collectAux oracle (fuel + 1) st tr =
      some (true, { all_articles := st.all_articles ++ d.getBody,
                    current_page := st.current_page },
            tr ++ (fetch_with_retry oracle st.current_page).2) ∧
    ∀ e ∈ (fetch_with_retry oracle st.current_page).2,
      isHttpFor (st.current_page + 1) e = false := by
  refine ⟨collectAux_last oracle fuel st tr d hfetch hne hmore, ?_⟩
  exact retryAux_http_target oracle st.current_page (st.current_page + 1)
    (by omega) MAX_RETRIES 0

/-- Witness for C1 on a concrete one-page upstream. -/
theorem last_page_records_kept_then_stop_witness :
    collectAux oracleStop (0 + 1) initState [] =
      some (true, { all_articles := initState.all_articles ++ pageLast.getBody,
                    current_page := initState.current_page },
            [] ++ (fetch_with_retry oracleStop initState.current_page).2) ∧
    ∀ e ∈ (fetch_with_retry oracleStop initState.current_page).2,
      isHttpFor (initState.current_page + 1) e = false :=
  last_page_records_kept_then_stop oracleStop 0 initState [] pageLast rfl rfl rfl

/-- C3: if, at any page of the run — page `1 + k`, reached after `k`
successfully accumulated non-final pages — all `MAX_RETRIES` attempts
fail, `collect_data` returns the boolean `False` (no exception is
modelled: the function is total), the records accumulated so far are
kept in the state but the run aborts: `run` takes the early-return
branch `collectFailed`, and the only branch of `run` that invokes
`save_data` is `wrote`, so no output file is written. -/
theorem fetch_exhaustion_returns_false_without_output (oracle : Oracle) (k fuel : Nat)
    (D : Nat → PageData)
    (hfetch : ∀ i, i < k → (fetch_with_retry oracle (1 + i)).1 = some (D i))
    (hmid : ∀ i, i < k → (D i).getBody.isEmpty = false ∧ (D i).getMore = true)
    (hfail : ∀ j, j < MAX_RETRIES → oracle (1 + k) j = none)
    (hfuel : k < fuel) :
    ∃ tr2, collect_data oracle fuel =
      some (false,
        { all_articles := (List.range k).flatMap (fun i => (D i).getBody),
          current_page := 1 + k }, tr2) ∧
      run oracle fuel = some RunOutcome.collectFailed := by
  have hres : (fetch_with_retry oracle (1 + k)).1 = none :=
    retryAux_none oracle (1 + k) MAX_RETRIES 0 (by simpa using hfail)
  obtain ⟨tr2, h⟩ := collectAux_run_fail oracle k D fuel initState []
    (by simpa [initState] using hfetch) hmid (by simpa [initState] using hres) hfuel
  have hcol : collect_data oracle fuel =
      some (false,
        { all_articles := (List.range k).flatMap (fun i => (D i).getBody),
          current_page := 1 + k }, tr2) := by
    simpa [collect_data, initState] using h
  refine ⟨tr2, hcol, ?_⟩
  simp only [run]
  rw [hcol]

/-- Witness for C3: one accumulated page, then exhaustion on page 2
mid-run aborts without output despite the accumulated record. -/
theorem fetch_exhaustion_returns_false_without_output_witness :
    ∃ tr2, collect_data oracleFailSecond 2 =
      some (false,
        { all_articles := (List.range 1).flatMap (fun i => (twoPagesData i).getBody),
          current_page := 1 + 1 }, tr2) ∧
      run oracleFailSecond 2 = some RunOutcome.collectFailed :=
  fetch_exhaustion_returns_false_without_output oracleFailSecond 1 2 twoPagesData
    (by decide) (by decide) (by decide) (by decide)

/-- C4: for a successfully fetched page the retry loop performs at most
`MAX_RETRIES = 3` HTTP attempts, and its event trace is well slept:
every attempt is immediately preceded by a throttle sleep drawn from the
3-5 s request-delay range and every failed attempt is immediately
followed by a backoff sleep drawn from the 5-10 s retry-delay range, so
each attempt comes with at least one sleep in the configured ranges. -/
theorem retry_attempt_and_sleep_discipline (oracle : Oracle) (page : Nat) (d : PageData)
    (_hsucc : (fetch_with_retry oracle page).1 = some d) :
    httpCount (fetch_with_retry oracle page).2 ≤ MAX_RETRIES ∧
    okTrace page (fetch_with_retry oracle page).2 = true :=
  ⟨retryAux_httpCount oracle page MAX_RETRIES 0, retryAux_okTrace oracle page MAX_RETRIES 0⟩

/-- Witness for C4 on a concrete upstream. -/
theorem retry_attempt_and_sleep_discipline_witness :
    httpCount (fetch_with_retry oracleStop 1).2 ≤ MAX_RETRIES ∧
    okTrace 1 (fetch_with_retry oracleStop 1).2 = true :=
  retry_attempt_and_sleep_discipline oracleStop 1 pageLast rfl

/-- C9: the crawler state starts with an empty accumulator and page
cursor 1; any terminating run only appends to the accumulator; and a
successful non-final page fetch advances the cursor by exactly 1 while
appending that page's records. -/
theorem accumulator_and_cursor_invariants (oracle : Oracle) (fuel : Nat)
    (st st2 : CrawlState) (tr tr2 : List Ev) (b : Bool) (d : PageData)
    (hrun : collectAux oracle fuel st tr = some (b, st2, tr2))
    (hfetch : (fetch_with_retry oracle st.current_page).1 = some d)
    (hne : d.getBody.isEmpty = false) (hmore : d.getMore = true) :
    initState.all_articles = [] ∧ initState.current_page = 1 ∧
    (∃ t, st2.all_articles = st.all_articles ++ t) ∧
    collectAux oracle (fuel + 1) st tr =
      collectAux oracle fuel
        { all_articles := st.all_articles ++ d.getBody,
          current_page := st.current_page + 1 }
        (tr ++ (fetch_with_retry oracle st.current_page).2) :=
  ⟨rfl, rfl, collectAux_mono oracle fuel st tr b st2 tr2 hrun,
   collectAux_step oracle fuel st tr d hfetch hne hmore⟩

/-- Witness for C9 on a concrete two-page upstream. -/
theorem accumulator_and_cursor_invariants_witness :
    initState.all_articles = [] ∧ initState.current_page = 1 ∧
    (∃ t, CrawlState.all_articles { all_articles := [sampleRec], current_page := 2 } =
      initState.all_articles ++ t) ∧
    collectAux oracleTwoPages (2 + 1) initState [] =
      collectAux oracleTwoPages 2
        { all_articles := initState.all_articles ++ pageMore.getBody,
          current_page := initState.current_page + 1 }
        ([] ++ (fetch_with_retry oracleTwoPages initState.current_page).2) :=
  accumulator_and_cursor_invariants oracleTwoPages 2 initState
    { all_articles := [sampleRec], current_page := 2 } []
    [Ev.sleep 3 5, Ev.http 1 0, Ev.sleep 3 5, Ev.http 2 0] true pageMore
    (by decide) rfl rfl rfl

/-- C10: if collection succeeds having accumulated zero records (for
example because the first page already has an empty record list),
`process_data` returns `None` rather than an empty table, and `run`
finishes in the `noData` outcome, which writes no output file. -/
theorem empty_accumulation_writes_nothing (oracle : Oracle) (fuel : Nat) (d : PageData)
    (hfetch : (fetch_with_retry oracle 1).1 = some d)
    (hempty : d.getBody.isEmpty = true) :
    process_data [] = none ∧ run oracle (fuel + 1) = some RunOutcome.noData := by
  constructor
  · rfl
  · have h1 : collectAux oracle (fuel + 1) initState [] =
        some (true, initState, [] ++ (fetch_with_retry oracle 1).2) :=
      collectAux_empty oracle fuel initState [] d hfetch hempty
    simp only [run, collect_data]
    rw [h1]
    simp [process_data, initState]

/-- Witness for C10 on an upstream whose first page is empty. -/
theorem empty_accumulation_writes_nothing_witness :
    process_data [] = none ∧ run oracleEmptyFirst (0 + 1) = some RunOutcome.noData :=
  empty_accumulation_writes_nothing oracleEmptyFirst 0 pageEmpty rfl rfl

/-- C2: if, after `k` successfully fetched non-final pages, the next
successful fetch returns an empty record list, `collect_data` stops at
that page (cursor `1 + k`, success `True`) and the accumulator is
exactly the concatenation of the prior pages' bodies, so its final
length equals the sum of the prior pages' record counts; the empty page
contributes nothing. -/
theorem empty_page_stops_with_exact_total (oracle : Oracle) (k fuel : Nat) (D : Nat → PageData)
    (hfetch : ∀ i, i ≤ k → (fetch_with_retry oracle (1 + i)).1 = some (D i))
    (hmid : ∀ i, i < k → (D i).getBody.isEmpty = false ∧ (D i).getMore = true)
    (hlast : (D k).getBody.isEmpty = true)
    (hfuel : k < fuel) :
    ∃ tr2, collect_data oracle fuel =
      some (true,
        { all_articles := (List.range k).flatMap (fun i => (D i).getBody),
          current_page := 1 + k }, tr2) ∧
      ((List.range k).flatMap (fun i => (D i).getBody)).length =
        ((List.range k).map (fun i => ((D i).getBody).length)).sum := by
  obtain ⟨tr2, h⟩ := collectAux_run oracle k D fuel initState []
    (by simpa [initState] using hfetch) hmid hlast hfuel
  refine ⟨tr2, ?_, ?_⟩
  · simpa [collect_data, initState] using h
  · simp only [List.flatMap, List.length_flatten, List.map_map]
    rfl

/-- Witness for C2: one non-final page of one record, then an empty page. -/
theorem empty_page_stops_with_exact_total_witness :
    ∃ tr2, collect_data oracleTwoPages 2 =
      some (true,
        { all_articles := (List.range 1).flatMap (fun i => (twoPagesData i).getBody),
          current_page := 1 + 1 }, tr2) ∧
      ((List.range 1).flatMap (fun i => (twoPagesData i).getBody)).length =
        ((List.range 1).map (fun i => ((twoPagesData i).getBody).length)).sum :=
  empty_page_stops_with_exact_total oracleTwoPages 1 2 twoPagesData
    (by decide) (by decide) (by decide) (by decide)

/-- C5: a page fetch succeeds only when the HTTP status is 200 AND the
body does not contain the bot-challenge marker; when the marker is
present the fetch returns failure irrespective of what parsing the body
would yield (the body is never parsed); and inside the retry loop such a
first-attempt failure consumes exactly one of the `MAX_RETRIES`
attempts: one throttle-sleep/request/backoff-sleep block is emitted and
the loop goes on from attempt 1 with the remaining budget. -/
theorem fetch_success_gate_and_captcha_consumes_one_attempt :
    (∀ (s : Nat) (t : List Char) (p : Option PageData) (d : PageData),
        get_real_estate_data (HttpResult.ok s t p) = some d →
        s = 200 ∧ containsSeq CAPTCHA_MARKER t = false ∧ p = some d) ∧
    (∀ (s : Nat) (t : List Char) (p : Option PageData),
        containsSeq CAPTCHA_MARKER t = true →
        get_real_estate_data (HttpResult.ok s t p) = none) ∧
    (∀ (resp : Nat → Nat → HttpResult) (page : Nat),
        get_real_estate_data (resp page 0) = none →
        fetch_with_retry (fun q j => get_real_estate_data (resp q j)) page =
          ((retryAux (fun q j => get_real_estate_data (resp q j)) page 1 (MAX_RETRIES - 1)).1,
           Ev.sleep 3 5 :: Ev.http page 0 :: Ev.sleep 5 10 ::
             (retryAux (fun q j => get_real_estate_data (resp q j)) page 1 (MAX_RETRIES - 1)).2)) := by
  refine ⟨?_, ?_, ?_⟩
  · intro s t p d h
    by_cases hs : s = 200
    · subst hs
      by_cases hc : containsSeq CAPTCHA_MARKER t = true
      · simp [get_real_estate_data, hc] at h
      · exact ⟨rfl, by simpa using hc, by simpa [get_real_estate_data, hc] using h⟩
    · simp [get_real_estate_data, hs] at h
  · intro s t p hc
    by_cases hs : s = 200 <;> simp [get_real_estate_data, hs, hc]
  · intro resp page h0
    show retryAux _ page 0 MAX_RETRIES = _
    simp only [MAX_RETRIES]
    simp [retryAux, h0, REQUEST_DELAY, RETRY_DELAY]

/-- Witness for C5: a concrete body containing the marker is rejected
without parsing, and burns exactly one attempt of the retry loop. -/
theorem fetch_success_gate_and_captcha_consumes_one_attempt_witness :
    get_real_estate_data (HttpResult.ok 200 CAPTCHA_MARKER (some pageLast)) = none ∧
    fetch_with_retry (fun q j => get_real_estate_data (respCaptchaFirst q j)) 1 =
      ((retryAux (fun q j => get_real_estate_data (respCaptchaFirst q j)) 1 1 (MAX_RETRIES - 1)).1,
       Ev.sleep 3 5 :: Ev.http 1 0 :: Ev.sleep 5 10 ::
         (retryAux (fun q j => get_real_estate_data (respCaptchaFirst q j)) 1 1 (MAX_RETRIES - 1)).2) :=
  ⟨fetch_success_gate_and_captcha_consumes_one_attempt.2.1 200 CAPTCHA_MARKER
     (some pageLast) (by decide),
   fetch_success_gate_and_captcha_consumes_one_attempt.2.2 respCaptchaFirst 1 (by decide)⟩

/-- C6: region-code lookup is total: `get_region_name` is a total
function returning a non-empty string for every code (it can raise no
exception), and on any code outside the 18-entry table it returns the
fallback label `기타지역(<code>)`, which embeds the original code. -/
theorem get_region_name_total (c : String) :
    get_region_name c ≠ "" ∧
    (REGION_CODES.lookup c = none → get_region_name c = "기타지역(" ++ c ++ ")") := by
  constructor
  · cases h : REGION_CODES.lookup c with
    | some name =>
      have hval : ∀ p ∈ REGION_CODES, ¬(p.2 = "") := by decide
      obtain ⟨a, ha⟩ := lookup_some_val_mem h
      have hne := hval (a, name) ha
      simpa [get_region_name, h] using hne
    | none =>
      have hform : get_region_name c = "기타지역(" ++ c ++ ")" := by
        simp [get_region_name, h]
      rw [hform]
      intro hcontra
      have h2 := congrArg String.length hcontra
      rw [String.length_append, String.length_append] at h2
      have h5 : ("기타지역(" : String).length = 5 := by decide
      have h6 : (")" : String).length = 1 := by decide
      have h0 : ("" : String).length = 0 := by decide
      rw [h5, h6, h0] at h2
      omega
  · intro h
    simp [get_region_name, h]

/-- Witness for C6 on a code outside the table. -/
theorem get_region_name_total_witness :
    get_region_name "9999" ≠ "" ∧
    get_region_name "9999" = "기타지역(" ++ "9999" ++ ")" :=
  ⟨(get_region_name_total "9999").1, (get_region_name_total "9999").2 (by decide)⟩

/-- C7: whenever `process_data` produces a table, its column list is a
sublist of `COLUMNS_TO_SAVE` — a subset appearing in exactly that list's
order; fields outside the list are dropped and listed columns absent
from the data are omitted without error. -/
theorem process_data_columns_sublist (records : List Record) (df : DataFrame)
    (h : process_data records = some df) :
    List.Sublist df.cols COLUMNS_TO_SAVE := by
  by_cases hne : records.isEmpty = true
  · simp [process_data, hne] at h
  · rw [process_data, if_neg hne] at h
    injection h with h2
    rw [← h2]
    exact List.filter_sublist _

/-- Witness for C7 on a record with a field outside the column list. -/
theorem process_data_columns_sublist_witness :
    List.Sublist ((process_data [sampleRec]).getD { cols := [], rows := [] }).cols
      COLUMNS_TO_SAVE :=
  process_data_columns_sublist [sampleRec] _ rfl

/-- C8: if no accumulated record carries the `cortarNo` key at all,
`process_data` still succeeds and every output row's `region` cell holds
the constant sentinel `지역정보없음`; a missing region-code field is
never fatal. -/
theorem missing_region_code_never_fatal (records : List Record)
    (hne : records.isEmpty = false)
    (hmiss : ∀ r ∈ records, List.lookup "cortarNo" r = none) :
    ∃ df, process_data records = some df ∧
      ∀ row ∈ df.rows, List.lookup "region" row = some (some "지역정보없음") := by
  have hnc : "cortarNo" ∉ dfColumns records := cortarNo_not_col records hmiss
  have hregcols : "region" ∈
      (if "region" ∈ dfColumns records then dfColumns records
       else dfColumns records ++ ["region"]) := by
    by_cases hrc : "region" ∈ dfColumns records <;> simp [hrc]
  have hregavail : "region" ∈ COLUMNS_TO_SAVE.filter
      (fun c => decide (c ∈
        (if "region" ∈ dfColumns records then dfColumns records
         else dfColumns records ++ ["region"]))) := by
    rw [List.mem_filter]
    exact ⟨by decide, by simpa using hregcols⟩
  have hpd : process_data records =
      some { cols := COLUMNS_TO_SAVE.filter
               (fun c => decide (c ∈
                 (if "region" ∈ dfColumns records then dfColumns records
                  else dfColumns records ++ ["region"]))),
             rows := (records.map (fun r => setField r "region" "지역정보없음")).map
               (fun r => (COLUMNS_TO_SAVE.filter
                 (fun c => decide (c ∈
                   (if "region" ∈ dfColumns records then dfColumns records
                    else dfColumns records ++ ["region"])))).map
                 (fun c => (c, List.lookup c r))) } := by
    unfold process_data
    rw [if_neg (by simp [hne])]
    simp only []
    rw [if_neg hnc]
    rfl
  refine ⟨_, hpd, ?_⟩
  intro row hrow
  simp only [List.mem_map] at hrow
  obtain ⟨r, hr, hrow⟩ := hrow
  obtain ⟨r0, hr0, hr0eq⟩ := hr
  subst hr0eq
  rw [← hrow]
  rw [lookup_map_self (fun c => List.lookup c (setField r0 "region" "지역정보없음")) _ _ hregavail]
  rw [lookup_setField]

/-- Witness for C8 on a record set lacking `cortarNo`. -/
theorem missing_region_code_never_fatal_witness :
    ∃ df, process_data [sampleRecNoCode] = some df ∧
      ∀ row ∈ df.rows, List.lookup "region" row = some (some "지역정보없음") :=
  missing_region_code_never_fatal [sampleRecNoCode] rfl (by decide)

end NaverLand
